import Mathlib

/-!
Verification of the triggered-capture recording pipeline of
`src/camera_control/ic_camera.py` (classes `ICCam` and `VideoRecordingSession`).

Shallow embedding conventions:
* A Python object becomes a Lean structure; every method becomes a pure
  function returning the method result together with the updated state.
* A raised Python exception is an `Except.error ()`; the state paired with it
  is the object state at the moment the exception escapes the method.
* `cv2.VideoWriter` sinks are modelled by identifiers: a fresh id is drawn
  from `nextSinkId` each time a writer is constructed, and ids on which
  `.release()` has been called are accumulated in the ghost list
  `closedSinks`.  Successful encodes into a sink are recorded in the ghost
  list `sinkWrites` as (sink id, frame token) pairs.
* `time.perf_counter()` values and frames are opaque data that the code only
  stores and forwards, never computes with; both are modelled as `Nat`
  tokens.
* Whether a `vid_out.write(frame)` call raises inside cv2 is not decided by
  this module, so it enters the model as an explicit `encodeOk : Bool`
  argument of `write`.
-/

/-- State of a `VideoRecordingSession` object (ic_camera.py lines 319-391).
Attributes that Python creates only inside `set_params` (`fourcc`, `fps`,
`dim`, `buffer_size`, `width`, `height`, `bitsperpixel`, `video_file`) are
`Option`s that start out `none`; reading such an attribute before it is set
raises `AttributeError`, which the methods below surface as `Except.error`. -/
structure VideoRecordingSession where
  cam_num : Nat
  recording_status : Bool
  vid_out : Option Nat
  frame_times : List Nat
  frame_num : List Nat
  fourcc : Option Nat
  fps : Option Nat
  dim : Option (Nat × Nat)
  buffer_size : Option Nat
  width : Option Nat
  height : Option Nat
  bitsperpixel : Option Nat
  video_file : Option String
  nextSinkId : Nat
  closedSinks : List Nat
  sinkWrites : List (Nat × Nat)
  deriving DecidableEq, Repr

namespace VideoRecordingSession

/-- `VideoRecordingSession.__init__` (lines 320-325). -/
def init (cam_num : Nat) : VideoRecordingSession :=
  { cam_num := cam_num
    recording_status := false
    vid_out := none
    frame_times := []
    frame_num := []
    fourcc := none
    fps := none
    dim := none
    buffer_size := none
    width := none
    height := none
    bitsperpixel := none
    video_file := none
    nextSinkId := 0
    closedSinks := []
    sinkWrites := [] }

/-- `VideoRecordingSession.set_recording_status` (lines 327-333): refuses
(returns `None`) when no writer is open, otherwise stores the flag and
returns `1`. -/
def set_recording_status (s : VideoRecordingSession) (status : Bool) :
    Option Nat × VideoRecordingSession :=
  match s.vid_out with
  | none => (none, s)
  | some _ => (some 1, { s with recording_status := status })

/-- `VideoRecordingSession.set_params` (lines 335-365): stores each supplied
parameter; when `video_file` is supplied it constructs a new
`cv2.VideoWriter` from the current `fourcc`/`fps`/`dim` attributes (an
`AttributeError` escapes if one of them was never set) and clears the two
history lists; the histories are cleared once more unconditionally before
returning `1`.  The previous writer, if any, is dropped without being
released. -/
def set_params (s : VideoRecordingSession) (video_file : Option String)
    (fourcc : Option Nat) (fps : Option Nat) (dim : Option (Nat × Nat))
    (buffer_size : Option Nat) (width : Option Nat) (height : Option Nat)
    (bitsperpixel : Option Nat) :
    Except Unit Nat × VideoRecordingSession :=
  let s1 : VideoRecordingSession := { s with
    fourcc := match fourcc with | some f => some f | none => s.fourcc
    fps := match fps with | some f => some f | none => s.fps
    dim := match dim with | some d => some d | none => s.dim
    buffer_size := match buffer_size with | some b => some b | none => s.buffer_size
    width := match width with | some w => some w | none => s.width
    height := match height with | some h => some h | none => s.height
    bitsperpixel := match bitsperpixel with | some b => some b | none => s.bitsperpixel }
  match video_file with
  | some vf =>
    match s1.fourcc, s1.fps, s1.dim with
    | some _, some _, some _ =>
      let s2 : VideoRecordingSession := { s1 with
        video_file := some vf
        vid_out := some s1.nextSinkId
        nextSinkId := s1.nextSinkId + 1
        frame_times := ([] : List Nat)
        frame_num := ([] : List Nat) }
      (Except.ok 1, { s2 with frame_times := [], frame_num := [] })
    | _, _, _ => (Except.error (), { s1 with video_file := some vf })
  | none => (Except.ok 1, { s1 with frame_times := [], frame_num := [] })

/-- `VideoRecordingSession.reset` (lines 367-371): drops the writer reference
and clears flag and histories. -/
def reset (s : VideoRecordingSession) : VideoRecordingSession :=
  { s with vid_out := none
           frame_times := []
           frame_num := []
           recording_status := false }

/-- `VideoRecordingSession.release` (lines 373-382): returns `None` when no
writer is open; otherwise releases the writer, drops it, disables recording,
clears both histories and returns `1`. -/
def release (s : VideoRecordingSession) : Option Nat × VideoRecordingSession :=
  match s.vid_out with
  | none => (none, s)
  | some sid =>
    (some 1, { s with vid_out := none
                      recording_status := false
                      frame_times := []
                      frame_num := []
                      closedSinks := s.closedSinks ++ [sid] })

/-- `VideoRecordingSession.write` (lines 384-391): returns `None` when no
writer is open or recording is disabled; otherwise encodes the frame into
the writer (`encodeOk = false` models a cv2 write that raises, in which case
the exception escapes before either append runs), then appends the timestamp
and the frame number and returns `1`. -/
def write (s : VideoRecordingSession) (frame : Nat) (time_data : Nat)
    (frame_num : Nat) (encodeOk : Bool) :
    Except Unit (Option Nat) × VideoRecordingSession :=
  match s.vid_out, s.recording_status with
  | none, _ => (Except.ok none, s)
  | some _, false => (Except.ok none, s)
  | some sid, true =>
    if encodeOk then
      (Except.ok (some 1),
        { s with sinkWrites := s.sinkWrites ++ [(sid, frame)]
                 frame_times := s.frame_times ++ [time_data]
                 frame_num := s.frame_num ++ [frame_num] })
    else
      (Except.error (), s)

/-- State reached by a sequence of `write` calls (frame, time, number,
encode outcome), ignoring the per-call results. -/
def writeSeq (s : VideoRecordingSession) (ws : List (Nat × Nat × Nat × Bool)) :
    VideoRecordingSession :=
  ws.foldl (fun s w => (write s w.1 w.2.1 w.2.2.1 w.2.2.2).2) s

end VideoRecordingSession

/-- One call to one method of a `VideoRecordingSession`, with every input the
caller controls (and, for `write`, the encode outcome the sink decides). -/
inductive SessionOp where
  | write (frame time_data frame_num : Nat) (encodeOk : Bool)
  | set_recording_status (status : Bool)
  | set_params (video_file : Option String) (fourcc fps : Option Nat)
      (dim : Option (Nat × Nat)) (buffer_size width height bitsperpixel : Option Nat)
  | release
  | reset
  deriving DecidableEq, Repr

/-- Effect of one method call on the session state (results discarded). -/
def SessionOp.step (s : VideoRecordingSession) : SessionOp → VideoRecordingSession
  | .write f t n ok => (s.write f t n ok).2
  | .set_recording_status b => (s.set_recording_status b).2
  | .set_params vf fc fps dim bs w h bpp =>
      (s.set_params vf fc fps dim bs w h bpp).2
  | .release => s.release.2
  | .reset => s.reset

/-- State reached from `s` by a sequence of method calls. -/
def SessionOp.run (s : VideoRecordingSession) (ops : List SessionOp) :
    VideoRecordingSession :=
  ops.foldl SessionOp.step s

/-! ## The frame-ready callback (ic_camera.py lines 213-232)

`frame_callback_video` is the Python closure handed to the driver.  Besides
the session-state effect we record an event trace so that ordering facts
(timestamp captured before the buffer is interpreted; exactly one forwarded
write) can be stated.  The `now` argument is the value `time.perf_counter()`
returns at the moment line 216 executes. -/

/-- Observable actions of one callback invocation, in program order. -/
inductive CbEvent where
  | readClock (t : Nat)
  | interpretBuffer
  | writeCall (t : Nat) (n : Nat)
  deriving DecidableEq, Repr

/-- `np.frombuffer(...).reshape((height, width, bitsperpixel))` (lines
220-221): the reshape succeeds exactly when the byte count of the flat
buffer equals the product of the target shape, and raises `ValueError`
otherwise. -/
def reshape (byte_length height width bitsperpixel : Nat) : Except Unit Unit :=
  if byte_length = height * width * bitsperpixel then Except.ok ()
  else Except.error ()

/-- `frame_callback_video` (lines 214-222): if `pData.recording_status` is
falsy it returns at once; otherwise it reads the clock, casts the raw
pointer to a `buffer_size`-byte array, reinterprets and reshapes it (an
`AttributeError` escapes if `buffer_size`/`height`/`width`/`bitsperpixel`
were never set, a `ValueError` escapes if the reshape fails), and forwards
one `pData.write(frame, callback_time, framenumber)` call whose own
exception, if any, also escapes. -/
def frame_callback_video (s : VideoRecordingSession) (framenumber : Nat)
    (now : Nat) (frame : Nat) (encodeOk : Bool) :
    Except Unit Unit × VideoRecordingSession × List CbEvent :=
  if s.recording_status then
    match s.buffer_size, s.height, s.width, s.bitsperpixel with
    | some bs, some h, some w, some bpp =>
      match reshape bs h w bpp with
      | Except.error _ =>
        (Except.error (), s, [CbEvent.readClock now, CbEvent.interpretBuffer])
      | Except.ok _ =>
        let (r, s') := s.write frame now framenumber encodeOk
        (match r with
          | Except.error _ => Except.error ()
          | Except.ok _ => Except.ok (),
         s',
         [CbEvent.readClock now, CbEvent.interpretBuffer,
          CbEvent.writeCall now framenumber])
    | _, _, _, _ => (Except.error (), s, [CbEvent.readClock now])
  else
    (Except.ok (), s, [])

/-- Modelled from the spec: the callback is handed to the driver wrapped as
`ic.TIS_GrabberDLL.FRAMEREADYCALLBACK(frame_callback_video)` (line 232);
`FRAMEREADYCALLBACK` is a ctypes foreign-function type declared in
`tisgrabber.py`, which is not under src/.  Per the spec, any error inside
the Callback Bridge "must be caught at the bridge boundary and never
propagated into driver code; logged and the frame is dropped", which is the
behaviour of a ctypes callback: a Python exception raised inside it is
reported and swallowed at the foreign boundary and a default value is
returned to the C caller.  The wrapper therefore always returns normally,
with the state the inner callback left behind. -/
def frame_callback_bridge (s : VideoRecordingSession) (framenumber : Nat)
    (now : Nat) (frame : Nat) (encodeOk : Bool) :
    Except Unit VideoRecordingSession :=
  Except.ok (frame_callback_video s framenumber now frame encodeOk).2.1

/-! ## ICCam-level operations on the session (ic_camera.py lines 190-260)

`ICCam.__init__` (line 52) sets `self.vid_file = VideoRecordingSession(...)`
and nothing ever assigns `None` to it, so the `vid_file is not None` guards
in `set_up_video_trigger` and `release_video_file` always take their main
branch; the functions below model that branch on the session state. -/

namespace ICCam

/-- `ICCam.set_recording_status` (lines 258-260): stores the flag on the
session unconditionally, without the sink-open guard of
`VideoRecordingSession.set_recording_status`. -/
def set_recording_status (s : VideoRecordingSession) (state : Bool) :
    VideoRecordingSession :=
  { s with recording_status := state }

/-- `ICCam.set_up_video_trigger` (lines 190-196): releases the session
(`vid_file` is never `None`), reads the buffer geometry from the driver
(`GetFrameData`, supplied here as arguments), and calls `set_params` with
every parameter. -/
def set_up_video_trigger (s : VideoRecordingSession) (video_file : String)
    (fourcc fps : Nat) (dim : Nat × Nat)
    (buffer_size width height bitsperpixel : Nat) :
    Except Unit Nat × VideoRecordingSession :=
  let (_, s1) := s.release
  s1.set_params (some video_file) (some fourcc) (some fps) (some dim)
    (some buffer_size) (some width) (some height) (some bitsperpixel)

/-- `ICCam.release_video_file` (lines 198-211), main branch (`vid_file` is
never `None`): deep-copies both histories, calls `release` (whose `None`
result on an unconfigured session is ignored), switches the flip-vertical
property back on the driver, resets the session, and returns the copied
pair. -/
def release_video_file (s : VideoRecordingSession) :
    (List Nat × List Nat) × VideoRecordingSession :=
  let frame_times := s.frame_times
  let frame_num := s.frame_num
  let (_, s1) := s.release
  ((frame_times, frame_num), s1.reset)

end ICCam

/-! ## Callback registration (ic_camera.py lines 68-78, 134-143, 234-256)

The `callback_registered` flag lives on the `TIS_CAM` object defined in
`tisgrabber.py`, which is not under src/; its initial value and the place
that sets it are modelled from the spec.  `ICCam.set_crop` replaces
`self.cam` with a *fresh* `TIS_CAM`, whose flag is false again; the ghost
`handleId` numbers the successive `TIS_CAM` instances a camera session
goes through, so that per-handle statements can be made. -/

/-- Camera-session state relevant to callback registration: the guard flag
of the current `TIS_CAM`, a ghost id numbering that `TIS_CAM` instance, the
crop rectangle, and a ghost trace recording, for each driver
`SetFrameReadyCallback` invocation, the handle id it was issued on and the
value the guard flag had at that moment. -/
structure ICCamState where
  callback_registered : Bool
  handleId : Nat
  regTrace : List (Nat × Bool)
  crop_top : Nat
  crop_left : Nat
  crop_height : Nat
  crop_width : Nat
  vid_file : VideoRecordingSession
  deriving DecidableEq, Repr

namespace ICCamState

/-- `ICCam.__init__` (lines 30-52).  Modelled from the spec for the part not
under src/: a fresh `TIS_CAM` has no callback registered, so
`callback_registered` starts `false`.  The initial crop rectangle comes
from the external config file; its values never influence the registration
state, so they are fixed to 0 here. -/
def init (cam_num : Nat) : ICCamState :=
  { callback_registered := false
    handleId := 0
    regTrace := []
    crop_top := 0
    crop_left := 0
    crop_height := 0
    crop_width := 0
    vid_file := VideoRecordingSession.init cam_num }

/-- Modelled from the spec: `TIS_CAM.SetFrameReadyCallback` (tisgrabber.py,
not under src/) registers the callback with the driver and sets the
`callback_registered` guard flag; the ghost trace records the current
handle id and the flag value at the moment of the driver call. -/
def SetFrameReadyCallback (c : ICCamState) : ICCamState :=
  { c with callback_registered := true
           regTrace := c.regTrace ++ [(c.handleId, c.callback_registered)] }

/-- `ICCam.set_frame_callback_video` (lines 234-256): registers the callback
only when `callback_registered` is false (the `vid_file is None` early
return never fires, since `vid_file` is set in `__init__`). -/
def set_frame_callback_video (c : ICCamState) : ICCamState :=
  if c.callback_registered then c else c.SetFrameReadyCallback

/-- `ICCam.enable_trigger` (lines 134-143): enables the hardware trigger and
calls `set_frame_callback_video` only when `callback_registered` is false. -/
def enable_trigger (c : ICCamState) : ICCamState :=
  if c.callback_registered then c else c.set_frame_callback_video

/-- `ICCam.disable_trigger` (lines 149-162): driver calls only; the session
state and the registration flag are untouched. -/
def disable_trigger (c : ICCamState) : ICCamState := c

/-- `ICCam.set_crop` (lines 68-78): updates each supplied crop coordinate,
closes the device and replaces `self.cam` with a fresh `TIS_CAM` (modelled
from the spec's registered-flag premise: a fresh `TIS_CAM` starts with
`callback_registered = false`; the ghost handle id is bumped), then
reopens, reapplies filters and restarts streaming (driver calls only). -/
def set_crop (c : ICCamState) (top left height width : Option Nat) :
    ICCamState :=
  { c with
    crop_top := match top with | some t => t | none => c.crop_top
    crop_left := match left with | some l => l | none => c.crop_left
    crop_height := match height with | some h => h | none => c.crop_height
    crop_width := match width with | some w => w | none => c.crop_width
    callback_registered := false
    handleId := c.handleId + 1 }

end ICCamState

/-- One ICCam-level operation of a camera-session lifetime. -/
inductive CamOp where
  | enable_trigger
  | set_frame_callback_video
  | disable_trigger
  | set_crop (top left height width : Option Nat)
  | set_recording_status (state : Bool)
  | set_up_video_trigger (video_file : String) (fourcc fps : Nat)
      (dim : Nat × Nat) (buffer_size width height bitsperpixel : Nat)
  | release_video_file
  deriving DecidableEq, Repr

/-- Effect of one ICCam operation on the camera-session state. -/
def CamOp.step (c : ICCamState) : CamOp → ICCamState
  | .enable_trigger => c.enable_trigger
  | .set_frame_callback_video => c.set_frame_callback_video
  | .disable_trigger => c.disable_trigger
  | .set_crop t l h w => c.set_crop t l h w
  | .set_recording_status b =>
      { c with vid_file := ICCam.set_recording_status c.vid_file b }
  | .set_up_video_trigger vf fc fps dim bs w h bpp =>
      { c with vid_file :=
          (ICCam.set_up_video_trigger c.vid_file vf fc fps dim bs w h bpp).2 }
  | .release_video_file =>
      { c with vid_file := (ICCam.release_video_file c.vid_file).2 }

/-- State reached from `c` by a sequence of ICCam operations. -/
def CamOp.run (c : ICCamState) (ops : List CamOp) : ICCamState :=
  ops.foldl CamOp.step c

/-- Registration bookkeeping invariant of a camera-session state: every
recorded driver registration happened with the guard flag false; the
handle ids in the trace are strictly increasing (so no handle is registered
twice); and every recorded handle id is bounded by the current handle id —
strictly, while the current handle is still unregistered. -/
def RegInv (c : ICCamState) : Prop :=
  (∀ p ∈ c.regTrace, p.2 = false) ∧
  List.Sorted (· < ·) (c.regTrace.map Prod.fst) ∧
  (∀ p ∈ c.regTrace,
    if c.callback_registered then p.1 ≤ c.handleId else p.1 < c.handleId)

/-! ## Concrete states used by witnesses and counterexamples -/

/-- A session configured by one successful `set_params` call with a
consistent buffer geometry (`921600 = 480 * 640 * 3`); sink id 0 is open. -/
def sConf : VideoRecordingSession :=
  ((VideoRecordingSession.init 0).set_params (some "a.avi") (some 861030210)
    (some 30) (some (640, 480)) (some 921600) (some 640) (some 480) (some 3)).2

/-- `sConf` with recording enabled. -/
def sRec : VideoRecordingSession := (sConf.set_recording_status true).2

/-- A recording session whose declared `buffer_size` (5) does not match
`height * width * bitsperpixel` (`480 * 640 * 3`). -/
def sBadGeom : VideoRecordingSession :=
  (((VideoRecordingSession.init 0).set_params (some "a.avi") (some 861030210)
      (some 30) (some (640, 480)) (some 5) (some 640) (some 480)
      (some 3)).2.set_recording_status true).2

/-! ## Helper lemmas -/

lemma write_eq_of_not_recording (s : VideoRecordingSession)
    (h : s.recording_status = false) (f t n : Nat) (ok : Bool) :
    s.write f t n ok = (Except.ok none, s) := by
  cases hv : s.vid_out with
  | none => simp [VideoRecordingSession.write, hv]
  | some sid => simp [VideoRecordingSession.write, hv, h]

lemma writeSeq_eq_of_not_recording :
    ∀ (ws : List (Nat × Nat × Nat × Bool)) (s : VideoRecordingSession),
      s.recording_status = false → s.writeSeq ws = s := by
  intro ws
  induction ws with
  | nil => intro s _; rfl
  | cons w ws ih =>
    intro s h
    have hw := write_eq_of_not_recording s h w.1 w.2.1 w.2.2.1 w.2.2.2
    simp only [VideoRecordingSession.writeSeq, List.foldl_cons] at ih ⊢
    rw [hw]
    exact ih s h

lemma run_cons (s : VideoRecordingSession) (op : SessionOp) (ops : List SessionOp) :
    SessionOp.run s (op :: ops) = SessionOp.run (SessionOp.step s op) ops := rfl

lemma run_preserves (P : VideoRecordingSession → Prop)
    (hstep : ∀ s op, P s → P (SessionOp.step s op)) :
    ∀ (ops : List SessionOp) (s : VideoRecordingSession),
      P s → P (SessionOp.run s ops) := by
  intro ops
  induction ops with
  | nil => intro s h; exact h
  | cons op ops ih =>
    intro s h
    rw [run_cons]
    exact ih _ (hstep s op h)

lemma step_preserves_len (s : VideoRecordingSession) (op : SessionOp)
    (h : s.frame_times.length = s.frame_num.length) :
    (SessionOp.step s op).frame_times.length =
      (SessionOp.step s op).frame_num.length := by
  cases op with
  | write f t n ok =>
    cases hv : s.vid_out with
    | none => simp [SessionOp.step, VideoRecordingSession.write, hv, h]
    | some sid =>
      cases hr : s.recording_status with
      | false => simp [SessionOp.step, VideoRecordingSession.write, hv, hr, h]
      | true =>
        cases ok <;> simp [SessionOp.step, VideoRecordingSession.write, hv, hr, h]
  | set_recording_status b =>
    cases hv : s.vid_out <;>
      simp [SessionOp.step, VideoRecordingSession.set_recording_status, hv, h]
  | set_params vf fc fps dim bs w hh bpp =>
    simp only [SessionOp.step, VideoRecordingSession.set_params]
    repeat' split
    all_goals simp_all
  | release =>
    cases hv : s.vid_out <;>
      simp [SessionOp.step, VideoRecordingSession.release, hv, h]
  | reset => simp [SessionOp.step, VideoRecordingSession.reset]

lemma step_preserves_rec_sink (s : VideoRecordingSession) (op : SessionOp)
    (h : s.recording_status = true → s.vid_out ≠ none) :
    (SessionOp.step s op).recording_status = true →
      (SessionOp.step s op).vid_out ≠ none := by
  cases op with
  | write f t n ok =>
    cases hv : s.vid_out with
    | none => simpa [SessionOp.step, VideoRecordingSession.write, hv] using h
    | some sid =>
      cases hr : s.recording_status with
      | false =>
        simp [SessionOp.step, VideoRecordingSession.write, hv, hr]
      | true =>
        cases ok <;>
          simp [SessionOp.step, VideoRecordingSession.write, hv, hr]
  | set_recording_status b =>
    cases hv : s.vid_out with
    | none => simpa [SessionOp.step, VideoRecordingSession.set_recording_status, hv] using h
    | some sid => simp [SessionOp.step, VideoRecordingSession.set_recording_status, hv]
  | set_params vf fc fps dim bs w hh bpp =>
    simp only [SessionOp.step, VideoRecordingSession.set_params]
    repeat' split
    all_goals first
      | exact h
      | (intro _; exact Option.some_ne_none _)
  | release =>
    cases hv : s.vid_out with
    | none => simpa [SessionOp.step, VideoRecordingSession.release, hv] using h
    | some sid => simp [SessionOp.step, VideoRecordingSession.release, hv]
  | reset => simp [SessionOp.step, VideoRecordingSession.reset]

/-! ## Claim theorems -/

/-- Claim C1: a `write` on a session whose sink is not open or whose
recording flag is false is a no-op returning `None` and leaves both
histories (indeed the whole state) unchanged; an accepted `write` encodes
the frame into the sink and appends timestamp and sequence number together,
while a failed encode raises with both histories untouched (no orphaned
timestamp entry); and any sequence of `write` calls while recording is
disabled leaves the histories unchanged, hence empty when they start
empty. -/
theorem write_gate_and_atomicity (s : VideoRecordingSession)
    (f t n : Nat) (ok : Bool) :
    ((s.vid_out = none ∨ s.recording_status = false) →
      s.write f t n ok = (Except.ok none, s)) ∧
    (s.vid_out ≠ none → s.recording_status = true →
      s.write f t n false = (Except.error (), s)) ∧
    (∀ sid, s.vid_out = some sid → s.recording_status = true →
      s.write f t n true =
        (Except.ok (some 1),
          { s with sinkWrites := s.sinkWrites ++ [(sid, f)]
                   frame_times := s.frame_times ++ [t]
                   frame_num := s.frame_num ++ [n] })) ∧
    (∀ ws, s.recording_status = false → s.frame_times = [] → s.frame_num = [] →
      (s.writeSeq ws).frame_times = [] ∧ (s.writeSeq ws).frame_num = []) := by
  refine ⟨?_, ?_, ?_, ?_⟩
  · rintro (hv | hr)
    · simp [VideoRecordingSession.write, hv]
    · exact write_eq_of_not_recording s hr f t n ok
  · intro hv hr
    cases hvo : s.vid_out with
    | none => exact absurd hvo hv
    | some sid => simp [VideoRecordingSession.write, hvo, hr]
  · intro sid hv hr
    simp [VideoRecordingSession.write, hv, hr]
  · intro ws hr ht hn
    rw [writeSeq_eq_of_not_recording ws s hr]
    exact ⟨ht, hn⟩

/-- Claim C1 witness: on the configured recording state `sRec`, a failed
encode raises and leaves the state unchanged. -/
theorem write_gate_and_atomicity_witness :
    VideoRecordingSession.write sRec 9 5 7 false = (Except.error (), sRec) :=
  (write_gate_and_atomicity sRec 9 5 7 false).2.1 (by decide) (by decide)

/-- Claim C2: starting from a freshly constructed session, after every
sequence of `VideoRecordingSession` operations (`write`, `set_params`,
`set_recording_status`, `release`, `reset`) the two history lists have equal
length. -/
theorem history_lengths_always_equal (cam_num : Nat) (ops : List SessionOp) :
    (SessionOp.run (VideoRecordingSession.init cam_num) ops).frame_times.length =
      (SessionOp.run (VideoRecordingSession.init cam_num) ops).frame_num.length :=
  run_preserves (fun s => s.frame_times.length = s.frame_num.length)
    step_preserves_len ops (VideoRecordingSession.init cam_num) rfl

/-- Claim C10: within the session's own interface, every reachable state
with `recording_status = true` has an open sink: `set_recording_status`
only enables recording when a sink is open, and `release`/`reset` clear the
flag when they drop the sink. -/
theorem recording_implies_sink_open (cam_num : Nat) (ops : List SessionOp)
    (h : (SessionOp.run (VideoRecordingSession.init cam_num) ops).recording_status
      = true) :
    (SessionOp.run (VideoRecordingSession.init cam_num) ops).vid_out ≠ none :=
  run_preserves (fun s => s.recording_status = true → s.vid_out ≠ none)
    step_preserves_rec_sink ops (VideoRecordingSession.init cam_num)
    (by intro hx; simp [VideoRecordingSession.init] at hx) h

/-- Claim C10 witness: after configuring and enabling recording, the sink is
open. -/
theorem recording_implies_sink_open_witness :
    (SessionOp.run (VideoRecordingSession.init 0)
      [SessionOp.set_params (some "a.avi") (some 861030210) (some 30)
        (some (640, 480)) (some 921600) (some 640) (some 480) (some 3),
       SessionOp.set_recording_status true]).vid_out ≠ none :=
  recording_implies_sink_open 0
    [SessionOp.set_params (some "a.avi") (some 861030210) (some 30)
      (some (640, 480)) (some 921600) (some 640) (some 480) (some 3),
     SessionOp.set_recording_status true] (by decide)

/-- Claim C3: `release` at the camera level (`ICCam.release_video_file`)
returns a snapshot copy of the accumulated (timestamps, sequence numbers)
pair, closes the sink when one is open, and clears the session state for
reuse; called on a freshly constructed (never configured) session it does
not fail and returns an empty pair. -/
theorem release_video_file_snapshot_and_clear (s : VideoRecordingSession) :
    (ICCam.release_video_file s).1 = (s.frame_times, s.frame_num) ∧
    (∀ sid, s.vid_out = some sid →
      sid ∈ (ICCam.release_video_file s).2.closedSinks) ∧
    (ICCam.release_video_file s).2.vid_out = none ∧
    (ICCam.release_video_file s).2.frame_times = [] ∧
    (ICCam.release_video_file s).2.frame_num = [] ∧
    (ICCam.release_video_file s).2.recording_status = false ∧
    (∀ n, ICCam.release_video_file (VideoRecordingSession.init n) =
      (([], []), VideoRecordingSession.init n)) := by
  refine ⟨?_, ?_, ?_, ?_, ?_, ?_, fun n => rfl⟩
  · cases hv : s.vid_out <;>
      simp [ICCam.release_video_file, VideoRecordingSession.release,
        VideoRecordingSession.reset, hv]
  · intro sid hsid
    simp [ICCam.release_video_file, VideoRecordingSession.release,
      VideoRecordingSession.reset, hsid]
  · cases hv : s.vid_out <;>
      simp [ICCam.release_video_file, VideoRecordingSession.release,
        VideoRecordingSession.reset, hv]
  · cases hv : s.vid_out <;>
      simp [ICCam.release_video_file, VideoRecordingSession.release,
        VideoRecordingSession.reset, hv]
  · cases hv : s.vid_out <;>
      simp [ICCam.release_video_file, VideoRecordingSession.release,
        VideoRecordingSession.reset, hv]
  · cases hv : s.vid_out <;>
      simp [ICCam.release_video_file, VideoRecordingSession.release,
        VideoRecordingSession.reset, hv]

/-- Claim C3 witness: releasing the configured session `sConf` records its
open sink id 0 as closed. -/
theorem release_video_file_snapshot_and_clear_witness :
    0 ∈ (ICCam.release_video_file sConf).2.closedSinks :=
  (release_video_file_snapshot_and_clear sConf).2.1 0 (by rfl)

/-- Claim C4 (bridge boundary modelled from the spec, see
`frame_callback_bridge`): every invocation of the wrapped frame-ready
callback returns normally to the driver, and whenever the inner Python
callback raises, the frame is dropped: both session histories are exactly
as they were before the invocation. -/
theorem bridge_catches_all_faults (s : VideoRecordingSession)
    (fn now f : Nat) (ok : Bool) :
    (∃ s', frame_callback_bridge s fn now f ok = Except.ok s') ∧
    ((frame_callback_video s fn now f ok).1 = Except.error () →
      (frame_callback_video s fn now f ok).2.1.frame_times = s.frame_times ∧
      (frame_callback_video s fn now f ok).2.1.frame_num = s.frame_num) := by
  refine ⟨⟨_, rfl⟩, ?_⟩
  intro herr
  cases hr : s.recording_status with
  | false => simp [frame_callback_video, hr]
  | true =>
    cases hbs : s.buffer_size with
    | none => simp [frame_callback_video, hr, hbs]
    | some bs =>
      cases hh : s.height with
      | none => simp [frame_callback_video, hr, hbs, hh]
      | some h =>
        cases hw : s.width with
        | none => simp [frame_callback_video, hr, hbs, hh, hw]
        | some w =>
          cases hbpp : s.bitsperpixel with
          | none => simp [frame_callback_video, hr, hbs, hh, hw, hbpp]
          | some bpp =>
            by_cases hg : bs = h * w * bpp
            · cases hv : s.vid_out with
              | none =>
                simp [frame_callback_video, reshape, VideoRecordingSession.write,
                  hr, hbs, hh, hw, hbpp, hg, hv] at herr
              | some sid =>
                cases ok with
                | true =>
                  simp [frame_callback_video, reshape, VideoRecordingSession.write,
                    hr, hbs, hh, hw, hbpp, hg, hv] at herr
                | false =>
                  simp [frame_callback_video, reshape, VideoRecordingSession.write,
                    hr, hbs, hh, hw, hbpp, hg, hv]
            · simp [frame_callback_video, reshape, hr, hbs, hh, hw, hbpp, hg]

/-- Claim C4 witness: on the mismatched-geometry state `sBadGeom` the inner
callback raises, and the histories are untouched. -/
theorem bridge_catches_all_faults_witness :
    (frame_callback_video sBadGeom 7 100 0 true).2.1.frame_times =
      sBadGeom.frame_times ∧
    (frame_callback_video sBadGeom 7 100 0 true).2.1.frame_num =
      sBadGeom.frame_num :=
  (bridge_catches_all_faults sBadGeom 7 100 0 true).2 (by rfl)

/-- Claim C5: constructing the pixel-grid view (the reshape over the raw
buffer) succeeds exactly when the declared byte length equals
height*width*bits_per_pixel; on a mismatch inside the callback the frame is
dropped — the session, in particular both histories, is left unchanged —
and the bridge returns normally, so streaming continues. -/
theorem framebuffer_geometry_check (s : VideoRecordingSession)
    (bs h w bpp fn now f : Nat) (ok : Bool) :
    ((reshape bs h w bpp = Except.ok ()) ↔ bs = h * w * bpp) ∧
    (s.recording_status = true → s.buffer_size = some bs →
     s.height = some h → s.width = some w → s.bitsperpixel = some bpp →
     bs ≠ h * w * bpp →
      frame_callback_video s fn now f ok =
        (Except.error (), s, [CbEvent.readClock now, CbEvent.interpretBuffer]) ∧
      frame_callback_bridge s fn now f ok = Except.ok s) := by
  constructor
  · by_cases hg : bs = h * w * bpp <;> simp [reshape, hg]
  · intro hr hbs hh hw hbpp hg
    constructor
    · simp [frame_callback_video, reshape, hr, hbs, hh, hw, hbpp, hg]
    · simp [frame_callback_bridge, frame_callback_video, reshape,
        hr, hbs, hh, hw, hbpp, hg]

/-- Claim C5 witness: `sBadGeom` declares 5 bytes for a 480x640x3 shape;
the callback drops the frame, leaves the session unchanged and the bridge
returns normally. -/
theorem framebuffer_geometry_check_witness :
    frame_callback_video sBadGeom 7 100 0 true =
      (Except.error (), sBadGeom,
        [CbEvent.readClock 100, CbEvent.interpretBuffer]) ∧
    frame_callback_bridge sBadGeom 7 100 0 true = Except.ok sBadGeom :=
  (framebuffer_geometry_check sBadGeom 5 480 640 3 7 100 0 true).2
    (by rfl) (by rfl) (by rfl) (by rfl) (by rfl) (by decide)

lemma fcv_trace_of_geometry_ok (s : VideoRecordingSession)
    (bs h w bpp fn now f : Nat) (ok : Bool)
    (hr : s.recording_status = true) (hbs : s.buffer_size = some bs)
    (hh : s.height = some h) (hw : s.width = some w)
    (hbpp : s.bitsperpixel = some bpp) (hg : bs = h * w * bpp) :
    (frame_callback_video s fn now f ok).2.2 =
      [CbEvent.readClock now, CbEvent.interpretBuffer,
       CbEvent.writeCall now fn] := by
  cases hv : s.vid_out <;> cases ok <;>
    simp [frame_callback_video, reshape, VideoRecordingSession.write,
      hr, hbs, hh, hw, hbpp, hg, hv]

/-- Claim C8: when the session's recording flag is false the callback
returns immediately, without interpreting the buffer or appending anything
(the whole state and trace are empty of effects); when the flag is true the
clock is read as the very first action, before any buffer interpretation,
and on the successful-interpretation path the callback forwards exactly one
write call carrying that clock value and the driver-supplied frame
sequence number. -/
theorem callback_gate_order_forward (s : VideoRecordingSession)
    (bs h w bpp fn now f : Nat) (ok : Bool) :
    (s.recording_status = false →
      frame_callback_video s fn now f ok = (Except.ok (), s, [])) ∧
    (s.recording_status = true →
      (frame_callback_video s fn now f ok).2.2.head? =
        some (CbEvent.readClock now)) ∧
    (s.recording_status = true → s.buffer_size = some bs →
     s.height = some h → s.width = some w → s.bitsperpixel = some bpp →
     bs = h * w * bpp →
      (frame_callback_video s fn now f ok).2.2 =
        [CbEvent.readClock now, CbEvent.interpretBuffer,
         CbEvent.writeCall now fn]) := by
  refine ⟨?_, ?_, ?_⟩
  · intro hr
    simp [frame_callback_video, hr]
  · intro hr
    cases hbs' : s.buffer_size with
    | none => simp [frame_callback_video, hr, hbs']
    | some bs' =>
      cases hh' : s.height with
      | none => simp [frame_callback_video, hr, hbs', hh']
      | some h' =>
        cases hw' : s.width with
        | none => simp [frame_callback_video, hr, hbs', hh', hw']
        | some w' =>
          cases hbpp' : s.bitsperpixel with
          | none => simp [frame_callback_video, hr, hbs', hh', hw', hbpp']
          | some bpp' =>
            by_cases hg' : bs' = h' * w' * bpp'
            · rw [fcv_trace_of_geometry_ok s bs' h' w' bpp' fn now f ok
                hr hbs' hh' hw' hbpp' hg']
              rfl
            · simp [frame_callback_video, reshape, hr, hbs', hh', hw',
                hbpp', hg']
  · intro hr hbs hh hw hbpp hg
    exact fcv_trace_of_geometry_ok s bs h w bpp fn now f ok
      hr hbs hh hw hbpp hg

/-- Claim C8 witness: on the recording state `sRec` (geometry consistent)
one invocation produces exactly the trace clock-read, buffer
interpretation, then a single write carrying that clock value and the
driver frame number. -/
theorem callback_gate_order_forward_witness :
    (frame_callback_video sRec 7 100 0 true).2.2 =
      [CbEvent.readClock 100, CbEvent.interpretBuffer,
       CbEvent.writeCall 100 7] :=
  (callback_gate_order_forward sRec 921600 480 640 3 7 100 0 true).2.2
    (by rfl) (by rfl) (by rfl) (by rfl) (by rfl) (by decide)

/-- Claim C6 counterexample: calling `set_params` with a video file on a
session whose sink 0 is open opens the new sink 1 but never closes sink 0:
`closedSinks` stays empty, so `set_params` itself does not close the
existing sink before opening the new one. -/
theorem set_params_leaves_prior_sink_unclosed :
    sConf.vid_out = some 0 ∧
    (sConf.set_params (some "b.avi") (some 861030210) (some 30)
      (some (640, 480)) (some 921600) (some 640) (some 480)
      (some 3)).2.vid_out = some 1 ∧
    (sConf.set_params (some "b.avi") (some 861030210) (some 30)
      (some (640, 480)) (some 921600) (some 640) (some 480)
      (some 3)).2.closedSinks = [] :=
  ⟨rfl, rfl, rfl⟩

/-- Claim C6 (amended): the configure path at the camera level,
`ICCam.set_up_video_trigger`, releases (closes) any existing sink before
`set_params` opens the new one — `set_params` alone does not close the
prior sink — and the histories are cleared, so a subsequent accepted
`write` produces a correctly-paired one-entry history with no residue from
the prior session. -/
theorem trigger_configure_closes_and_fresh_history
    (s : VideoRecordingSession) (vf : String) (fc fps : Nat)
    (dim : Nat × Nat) (bs w h bpp f t n : Nat) :
    (∀ sid, s.vid_out = some sid →
      sid ∈ (ICCam.set_up_video_trigger s vf fc fps dim bs w h
        bpp).2.closedSinks) ∧
    (ICCam.set_up_video_trigger s vf fc fps dim bs w h bpp).1 =
      Except.ok 1 ∧
    (ICCam.set_up_video_trigger s vf fc fps dim bs w h bpp).2.frame_times
      = [] ∧
    (ICCam.set_up_video_trigger s vf fc fps dim bs w h bpp).2.frame_num
      = [] ∧
    ((((ICCam.set_up_video_trigger s vf fc fps dim bs w h
        bpp).2.set_recording_status true).2.write f t n
        true).2.frame_times = [t] ∧
     (((ICCam.set_up_video_trigger s vf fc fps dim bs w h
        bpp).2.set_recording_status true).2.write f t n
        true).2.frame_num = [n]) := by
  cases hv : s.vid_out with
  | none =>
    refine ⟨fun sid hsid => by simp [hv] at hsid, ?_, ?_, ?_, ?_, ?_⟩ <;>
      simp [ICCam.set_up_video_trigger, VideoRecordingSession.release,
        VideoRecordingSession.set_params,
        VideoRecordingSession.set_recording_status,
        VideoRecordingSession.write, hv]
  | some sid0 =>
    refine ⟨?_, ?_, ?_, ?_, ?_, ?_⟩ <;>
      simp [ICCam.set_up_video_trigger, VideoRecordingSession.release,
        VideoRecordingSession.set_params,
        VideoRecordingSession.set_recording_status,
        VideoRecordingSession.write, hv]

/-- Claim C6 witness: re-arming the configured session `sConf` through
`set_up_video_trigger` closes its open sink 0. -/
theorem trigger_configure_closes_and_fresh_history_witness :
    0 ∈ (ICCam.set_up_video_trigger sConf "b.avi" 861030210 30 (640, 480)
      921600 640 480 3).2.closedSinks :=
  (trigger_configure_closes_and_fresh_history sConf "b.avi" 861030210 30
    (640, 480) 921600 640 480 3 0 5 7).1 0 (by rfl)

/-- Claim C7 counterexample: on a fresh session with no sink open, the
camera-level path `ICCam.set_recording_status` does not no-op: it flips
the recording flag from false to true, so the guard does not hold for
every path through which the flag is set. -/
theorem iccam_set_recording_bypasses_guard :
    (VideoRecordingSession.init 0).vid_out = none ∧
    (VideoRecordingSession.init 0).recording_status = false ∧
    (ICCam.set_recording_status (VideoRecordingSession.init 0)
      true).recording_status = true :=
  ⟨rfl, rfl, rfl⟩

/-- Claim C7 (amended): `VideoRecordingSession.set_recording_status` is a
no-op returning `None`, with the flag unchanged, when no sink is open, and
stores the flag when one is; `ICCam.set_recording_status`, however,
bypasses that guard and stores the flag unconditionally, so the
no-sink-no-op property does not extend to that path. -/
theorem set_recording_status_guarded (s : VideoRecordingSession) (b : Bool) :
    (s.vid_out = none → s.set_recording_status b = (none, s)) ∧
    (s.vid_out ≠ none →
      s.set_recording_status b = (some 1, { s with recording_status := b })) ∧
    (ICCam.set_recording_status s b).recording_status = b := by
  refine ⟨?_, ?_, rfl⟩
  · intro hv; simp [VideoRecordingSession.set_recording_status, hv]
  · intro hv
    cases hvo : s.vid_out with
    | none => exact absurd hvo hv
    | some sid => simp [VideoRecordingSession.set_recording_status, hvo]

/-- Claim C7 witness: on a fresh session the guarded session-level setter
really is a no-op returning `None`. -/
theorem set_recording_status_guarded_witness :
    VideoRecordingSession.set_recording_status (VideoRecordingSession.init 0)
      true = (none, VideoRecordingSession.init 0) :=
  (set_recording_status_guarded (VideoRecordingSession.init 0) true).1 rfl

lemma cam_run_cons (c : ICCamState) (op : CamOp) (ops : List CamOp) :
    CamOp.run c (op :: ops) = CamOp.run (CamOp.step c op) ops := rfl

lemma register_preserves_RegInv (c : ICCamState)
    (hr : c.callback_registered = false) (h : RegInv c) :
    RegInv c.SetFrameReadyCallback := by
  obtain ⟨h1, h2, h3⟩ := h
  refine ⟨?_, ?_, ?_⟩
  · intro p hp
    simp only [ICCamState.SetFrameReadyCallback, List.mem_append,
      List.mem_singleton] at hp
    rcases hp with hp | hp
    · exact h1 p hp
    · rw [hp, hr]
  · simp only [ICCamState.SetFrameReadyCallback, List.map_append]
    show List.Pairwise (· < ·)
      (List.map Prod.fst c.regTrace ++
        List.map Prod.fst [(c.handleId, c.callback_registered)])
    rw [List.pairwise_append]
    refine ⟨h2, by simp, ?_⟩
    intro a ha b hb
    simp only [List.map_cons, List.map_nil, List.mem_singleton] at hb
    obtain ⟨p, hp, hpa⟩ := List.mem_map.mp ha
    have := h3 p hp
    rw [hr] at this
    simp only [if_neg Bool.false_ne_true] at this
    rw [hb, ← hpa]
    exact this
  · intro p hp
    simp only [ICCamState.SetFrameReadyCallback, List.mem_append,
      List.mem_singleton] at hp
    have hq : ∀ q : Nat × Bool, q ∈ c.regTrace → q.1 ≤ c.handleId := by
      intro q hqm
      have := h3 q hqm
      rw [hr] at this
      simp only [if_neg Bool.false_ne_true] at this
      exact Nat.le_of_lt this
    rcases hp with hp | hp
    · simpa [ICCamState.SetFrameReadyCallback] using hq p hp
    · simp [ICCamState.SetFrameReadyCallback, hp]

lemma cam_step_RegInv (c : ICCamState) (op : CamOp) (h : RegInv c) :
    RegInv (CamOp.step c op) := by
  obtain ⟨h1, h2, h3⟩ := h
  cases op with
  | enable_trigger =>
    cases hr : c.callback_registered with
    | true =>
      simpa [CamOp.step, ICCamState.enable_trigger, hr] using ⟨h1, h2, h3⟩
    | false =>
      have := register_preserves_RegInv c hr ⟨h1, h2, h3⟩
      simpa [CamOp.step, ICCamState.enable_trigger,
        ICCamState.set_frame_callback_video, hr] using this
  | set_frame_callback_video =>
    cases hr : c.callback_registered with
    | true =>
      simpa [CamOp.step, ICCamState.set_frame_callback_video, hr]
        using ⟨h1, h2, h3⟩
    | false =>
      have := register_preserves_RegInv c hr ⟨h1, h2, h3⟩
      simpa [CamOp.step, ICCamState.set_frame_callback_video, hr] using this
  | disable_trigger =>
    exact ⟨h1, h2, h3⟩
  | set_crop t l hh w =>
    refine ⟨h1, h2, ?_⟩
    intro p hp
    have := h3 p hp
    simp only [CamOp.step, ICCamState.set_crop, if_neg Bool.false_ne_true]
    cases hr : c.callback_registered with
    | true =>
      rw [hr, if_pos rfl] at this
      exact Nat.lt_succ_of_le this
    | false =>
      rw [hr, if_neg Bool.false_ne_true] at this
      exact Nat.lt_succ_of_lt this
  | set_recording_status b =>
    exact ⟨h1, h2, h3⟩
  | set_up_video_trigger vf fc fps dim bs w hh bpp =>
    exact ⟨h1, h2, h3⟩
  | release_video_file =>
    exact ⟨h1, h2, h3⟩

lemma cam_run_RegInv (ops : List CamOp) :
    ∀ c : ICCamState, RegInv c → RegInv (CamOp.run c ops) := by
  induction ops with
  | nil => intro c h; exact h
  | cons op ops ih =>
    intro c h
    rw [cam_run_cons]
    exact ih _ (cam_step_RegInv c op h)

/-- Claim C9 counterexample: `ICCam.set_crop` replaces `self.cam` with a
fresh `TIS_CAM`, whose `callback_registered` flag is false again, so the
sequence enable_trigger; set_crop; enable_trigger performs two driver
`SetFrameReadyCallback` invocations within one camera-session lifetime (on
handle 0 and on handle 1) — registration is not at-most-once per Camera
Session lifetime. -/
theorem set_crop_allows_second_registration :
    (CamOp.run (ICCamState.init 0)
      [CamOp.enable_trigger, CamOp.set_crop none none none none,
       CamOp.enable_trigger]).regTrace = [(0, false), (1, false)] := rfl

/-- Claim C9 (amended): over every sequence of camera-session operations
starting from a fresh camera, the driver `SetFrameReadyCallback` is
invoked only at moments when `callback_registered` is false, and at most
once per device handle (per `TIS_CAM` instance): the handle ids in the
registration trace are pairwise distinct.  Since `set_crop` installs a
fresh `TIS_CAM` whose flag is false, a lifetime spanning a `set_crop` may
register again, so at-most-once holds per handle, not per session
lifetime. -/
theorem registration_guard_per_handle (n : Nat) (ops : List CamOp) :
    ((CamOp.run (ICCamState.init n) ops).regTrace.all
      (fun p => p.2 == false)) = true ∧
    ((CamOp.run (ICCamState.init n) ops).regTrace.map Prod.fst).Nodup := by
  have h := cam_run_RegInv ops (ICCamState.init n)
    ⟨by intro p hp; simp [ICCamState.init] at hp,
     by simp [ICCamState.init],
     by intro p hp; simp [ICCamState.init] at hp⟩
  constructor
  · rw [List.all_eq_true]
    intro p hp
    simpa using h.1 p hp
  · exact h.2.1.nodup
